import Mathlib

/-!
Verification development for the llm-fact-checker repository.

The repository is a RAG fact-checking system: a Next.js/Hono gateway layer
(TypeScript, under `src/`) validates requests, caches results in Redis keyed
by a normalized claim hash, and proxies to a Python ML service implementing
the four-stage RAG pipeline (extraction, retrieval, comparison, assembly).

The TypeScript gateway code (the rag verify route, the legacy backend route,
and the CacheManager) is embedded from its source. The ML service pipeline
components (FactStore, EvidenceIndex, EvidenceComparator) are declared and
documented in the repository but their Python sources are not present under
`src/`; those components are modelled from the specification, as marked in
their doc comments. External capabilities (the generative model, the
embedding function, the SHA-256 hash from node crypto, the vector index
distances) are injected as function parameters, mirroring the capability
injection design the repository documents.

Numeric scores (similarity, confidence) are modelled as rationals.
-/

/-- Three-way verdict of evidence comparison. -/
inductive Verdict where
  | vTrue
  | vFalse
  | unverifiable
deriving DecidableEq, Repr

/-- A reference fact of the corpus (named `Fact` in the repository; renamed
here because Mathlib already declares `Fact`). The open metadata map is
omitted: no embedded operation reads it. The embedding is a rational
vector; an empty vector models an absent embedding. -/
structure CorpusFact where
  id : String
  claimText : String
  sourceUrl : String
  publicationDate : String
  category : String
  embedding : List ℚ
deriving DecidableEq, Repr

/-- A (fact, similarity) pair produced by one retrieval query. -/
structure RetrievedEvidence where
  fact : CorpusFact
  similarity : ℚ
deriving DecidableEq, Repr

/-- Output of evidence comparison. -/
structure ComparisonResult where
  verdict : Verdict
  confidence : ℚ
  explanation : String
  reasoning : String
deriving DecidableEq, Repr

/-- Modelled from the spec: the parsed structured payload of the generative
model response (`ml-service/services/llm_comparator.py` is not under
`src/`). The model may omit the confidence field, hence `Option`. -/
structure ParsedPayload where
  verdict : Verdict
  confidence : Option ℚ
  explanation : String
  reasoning : String
deriving DecidableEq, Repr

/-- Modelled from the spec: the comparison prompt embeds the claim and each
evidence item with its fact text, source, date and similarity score, and
instructs the model to classify as true, false, or unverifiable. -/
def buildPrompt (claim : String) (evidence : List RetrievedEvidence) : String :=
  "Claim: " ++ claim ++
    String.join (evidence.map (fun e =>
      " Evidence: " ++ e.fact.claimText ++
      " Source: " ++ e.fact.sourceUrl ++
      " Date: " ++ e.fact.publicationDate ++
      " Similarity: " ++ toString e.similarity)) ++
    " Classify the claim as true, false, or unverifiable and justify the choice using the evidence."

/-- Arithmetic mean of the similarity scores of an evidence list (0 on the
empty list, which the comparator never reaches: it short-circuits first). -/
def meanSimilarity (evidence : List RetrievedEvidence) : ℚ :=
  (evidence.map (fun e => e.similarity)).sum / (evidence.length : ℚ)

/-- Modelled from the spec: when the parsed payload omits confidence, the
comparator derives it as the mean of the evidence similarities, capped at
1/2 when the derived verdict is unverifiable. -/
def deriveConfidence (p : ParsedPayload) (evidence : List RetrievedEvidence) : ℚ :=
  match p.confidence with
  | some c => c
  | none =>
      if p.verdict = Verdict.unverifiable then
        min (meanSimilarity evidence) (1 / 2)
      else
        meanSimilarity evidence

/-- Modelled from the spec: `EvidenceComparator.compare`
(`ml-service/services/llm_comparator.py` is not under `src/`). The injected
generative-model capability `llm` and the defensive response parser `parse`
are passed as functions. The returned Bool records whether the generative
model was invoked on this call. Empty evidence short-circuits without a
model call; a parse failure falls back to an unverifiable result carrying
the raw response text; otherwise the parsed payload is finalized with the
derived confidence. -/
def EvidenceComparator.compare (llm : String → String)
    (parse : String → Option ParsedPayload)
    (claim : String) (evidence : List RetrievedEvidence) :
    ComparisonResult × Bool :=
  if evidence.isEmpty then
    ({ verdict := Verdict.unverifiable
       confidence := 0
       explanation := "No relevant evidence was found in the fact corpus for this claim."
       reasoning := "no evidence retrieved" }, false)
  else
    let raw := llm (buildPrompt claim evidence)
    match parse raw with
    | none =>
        ({ verdict := Verdict.unverifiable
           confidence := 1 / 2
           explanation := raw
           reasoning := "parse failure" }, true)
    | some p =>
        ({ verdict := p.verdict
           confidence := deriveConfidence p evidence
           explanation := p.explanation
           reasoning := p.reasoning }, true)

/-- C1: compare with an empty evidence list short-circuits to an
unverifiable verdict with confidence 0 and the generative model is never
invoked. -/
theorem C1_compare_empty_evidence (llm : String → String)
    (parse : String → Option ParsedPayload) (claim : String) :
    (EvidenceComparator.compare llm parse claim []).1.verdict = Verdict.unverifiable ∧
    (EvidenceComparator.compare llm parse claim []).1.confidence = 0 ∧
    (EvidenceComparator.compare llm parse claim []).2 = false := by
  refine ⟨rfl, rfl, rfl⟩

/-- C3: for non-empty evidence, when the parser fails on the model response
the comparator falls back to verdict unverifiable, confidence 1/2,
explanation equal to the raw response text, reasoning "parse failure"; the
Bool shows the model was invoked and totality shows no exception escapes. -/
theorem C3_parse_failure_fallback (llm : String → String)
    (parse : String → Option ParsedPayload)
    (claim : String) (evidence : List RetrievedEvidence)
    (hne : evidence ≠ [])
    (hp : parse (llm (buildPrompt claim evidence)) = none) :
    EvidenceComparator.compare llm parse claim evidence =
      ({ verdict := Verdict.unverifiable
         confidence := 1 / 2
         explanation := llm (buildPrompt claim evidence)
         reasoning := "parse failure" }, true) := by
  unfold EvidenceComparator.compare
  rw [if_neg (by simpa [List.isEmpty_iff] using hne)]
  simp only [hp]

/-- Witness for C3 at a concrete input: one evidence item, a model returning
prose, a parser that fails on it. -/
theorem C3_parse_failure_fallback_witness :
    EvidenceComparator.compare (fun _ => "I cannot answer that.") (fun _ => none)
        "the sky is green"
        [{ fact := { id := "fact_001", claimText := "the sky is blue",
                     sourceUrl := "u", publicationDate := "2024-01-01",
                     category := "science", embedding := [1] },
           similarity := 9/10 }] =
      ({ verdict := Verdict.unverifiable
         confidence := 1 / 2
         explanation := "I cannot answer that."
         reasoning := "parse failure" }, true) := by
  exact C3_parse_failure_fallback _ _ _ _ (by decide) rfl

/-- C4: for non-empty evidence, when the parsed payload omits confidence the
comparator derives the confidence from the mean of the evidence similarity
scores; an unverifiable verdict caps it at 1/2, so it is then at most 1/2. -/
theorem C4_confidence_from_evidence (llm : String → String)
    (parse : String → Option ParsedPayload)
    (claim : String) (evidence : List RetrievedEvidence) (p : ParsedPayload)
    (hne : evidence ≠ [])
    (hp : parse (llm (buildPrompt claim evidence)) = some p)
    (hc : p.confidence = none) :
    ((p.verdict ≠ Verdict.unverifiable →
        (EvidenceComparator.compare llm parse claim evidence).1.confidence =
          meanSimilarity evidence) ∧
     (p.verdict = Verdict.unverifiable →
        (EvidenceComparator.compare llm parse claim evidence).1.confidence =
          min (meanSimilarity evidence) (1 / 2) ∧
        (EvidenceComparator.compare llm parse claim evidence).1.confidence ≤ 1 / 2)) := by
  have hres : EvidenceComparator.compare llm parse claim evidence =
      ({ verdict := p.verdict
         confidence := deriveConfidence p evidence
         explanation := p.explanation
         reasoning := p.reasoning }, true) := by
    unfold EvidenceComparator.compare
    rw [if_neg (by simpa [List.isEmpty_iff] using hne)]
    simp only [hp]
  constructor
  · intro hv
    rw [hres]
    simp only [deriveConfidence, hc, if_neg hv]
  · intro hv
    rw [hres]
    refine ⟨by simp only [deriveConfidence, hc, if_pos hv], ?_⟩
    simp only [deriveConfidence, hc, if_pos hv]
    exact min_le_right _ _

/-- Witness for C4 at a concrete input: one evidence item of similarity
9/10, a payload with unverifiable verdict and no confidence; the derived
confidence is min (9/10) (1/2) = 1/2 ≤ 1/2. -/
theorem C4_confidence_from_evidence_witness :
    (EvidenceComparator.compare (fun _ => "resp")
        (fun _ => some { verdict := Verdict.unverifiable, confidence := none,
                         explanation := "e", reasoning := "r" })
        "claim"
        [{ fact := { id := "fact_001", claimText := "t", sourceUrl := "u",
                     publicationDate := "2024-01-01", category := "science",
                     embedding := [1] },
           similarity := 9/10 }]).1.confidence ≤ 1 / 2 := by
  exact (((C4_confidence_from_evidence _ _ _ _ _ (by decide) rfl rfl).2) rfl).2

/-- Descending-similarity order on retrieved evidence. -/
def simDesc (a b : RetrievedEvidence) : Prop := b.similarity ≤ a.similarity

instance : DecidableRel simDesc := fun a b =>
  inferInstanceAs (Decidable (b.similarity ≤ a.similarity))

instance : IsTotal RetrievedEvidence simDesc :=
  ⟨fun a b => le_total b.similarity a.similarity⟩

instance : IsTrans RetrievedEvidence simDesc :=
  ⟨fun _ _ _ h1 h2 => le_trans h2 h1⟩

/-- Modelled from the spec: conversion of the index's native distance
metric to a similarity score (`ml-service/services/vector_retriever.py` is
not under `src/`). The spec requires every returned similarity to lie in
[0, 1]; a cosine distance d is converted to 1 - d clamped into that range. -/
def toSimilarity (d : ℚ) : ℚ := max 0 (min 1 (1 - d))

/-- Modelled from the spec: `EvidenceIndex.retrieve`
(`ml-service/services/vector_retriever.py` is not under `src/`). The
embedding of the claim text and the nearest-neighbor query are external
capabilities, abstracted as the per-fact distance function `dist` the index
reports for this query. The facts are scored, ordered by descending
similarity so the `topK` nearest come first, and any result below the
threshold is filtered out; zero surviving results give an empty list. -/
def EvidenceIndex.retrieve (facts : List CorpusFact) (dist : CorpusFact → ℚ)
    (topK : ℕ) (threshold : ℚ) : List RetrievedEvidence :=
  let scored := facts.map (fun f => RetrievedEvidence.mk f (toSimilarity (dist f)))
  ((scored.insertionSort simDesc).take topK).filter
    (fun e => decide (threshold ≤ e.similarity))

theorem toSimilarity_nonneg (d : ℚ) : 0 ≤ toSimilarity d := le_max_left 0 _

theorem toSimilarity_le_one (d : ℚ) : toSimilarity d ≤ 1 :=
  max_le (by norm_num) (min_le_left 1 _)

theorem retrieve_sublist_sorted (facts : List CorpusFact) (dist : CorpusFact → ℚ)
    (topK : ℕ) (threshold : ℚ) :
    (EvidenceIndex.retrieve facts dist topK threshold).Sublist
      ((facts.map (fun f => RetrievedEvidence.mk f (toSimilarity (dist f)))).insertionSort simDesc) :=
  (List.filter_sublist _).trans (List.take_sublist _ _)

/-- C2: every retrieved evidence item has similarity in [0, 1] and at least
the threshold; the result is ordered by descending similarity, has at most
topK elements, and is the empty list (not an error) when no fact passes the
threshold. -/
theorem C2_retrieve_contract (facts : List CorpusFact) (dist : CorpusFact → ℚ)
    (topK : ℕ) (threshold : ℚ) :
    (∀ e ∈ EvidenceIndex.retrieve facts dist topK threshold,
        0 ≤ e.similarity ∧ e.similarity ≤ 1 ∧ threshold ≤ e.similarity) ∧
    List.Sorted simDesc (EvidenceIndex.retrieve facts dist topK threshold) ∧
    (EvidenceIndex.retrieve facts dist topK threshold).length ≤ topK ∧
    ((∀ f ∈ facts, toSimilarity (dist f) < threshold) →
        EvidenceIndex.retrieve facts dist topK threshold = []) := by
  refine ⟨?_, ?_, ?_, ?_⟩
  · intro e he
    have hsub := retrieve_sublist_sorted facts dist topK threshold
    have hmem : e ∈ (facts.map
        (fun f => RetrievedEvidence.mk f (toSimilarity (dist f)))).insertionSort simDesc :=
      hsub.mem he
    have hmem' : e ∈ facts.map (fun f => RetrievedEvidence.mk f (toSimilarity (dist f))) :=
      (List.perm_insertionSort simDesc _).mem_iff.mp hmem
    obtain ⟨f, _, rfl⟩ := List.mem_map.mp hmem'
    have hth : threshold ≤ (RetrievedEvidence.mk f (toSimilarity (dist f))).similarity := by
      have := List.of_mem_filter he
      exact of_decide_eq_true this
    exact ⟨toSimilarity_nonneg _, toSimilarity_le_one _, hth⟩
  · have hs : List.Sorted simDesc
        ((facts.map (fun f => RetrievedEvidence.mk f (toSimilarity (dist f)))).insertionSort simDesc) :=
      List.sorted_insertionSort simDesc _
    exact List.Pairwise.sublist (retrieve_sublist_sorted facts dist topK threshold) hs
  · calc (EvidenceIndex.retrieve facts dist topK threshold).length
        ≤ (((facts.map (fun f => RetrievedEvidence.mk f (toSimilarity (dist f)))).insertionSort
            simDesc).take topK).length := List.Sublist.length_le (List.filter_sublist _)
      _ ≤ topK := by
          rw [List.length_take]; exact min_le_left _ _
  · intro hall
    apply List.filter_eq_nil_iff.mpr
    intro e he
    have hmem' : e ∈ facts.map (fun f => RetrievedEvidence.mk f (toSimilarity (dist f))) :=
      (List.perm_insertionSort simDesc _).mem_iff.mp (List.mem_of_mem_take he)
    obtain ⟨f, hf, rfl⟩ := List.mem_map.mp hmem'
    simpa using not_le.mpr (hall f hf)


/-- Witness for C2 at concrete inputs: a corpus of one fact at distance
1/20 from the query (similarity 19/20) satisfies the bounds and the
threshold 3/10, and a corpus whose only fact sits at distance 9/10
(similarity 1/10, below the threshold) retrieves the empty list. -/
theorem C2_retrieve_contract_witness :
    (0 ≤ (RetrievedEvidence.mk
          { id := "fact_001", claimText := "X happened in 2020", sourceUrl := "u",
            publicationDate := "2020-01-01", category := "history",
            embedding := [1] } (19/20)).similarity ∧
       (RetrievedEvidence.mk
          { id := "fact_001", claimText := "X happened in 2020", sourceUrl := "u",
            publicationDate := "2020-01-01", category := "history",
            embedding := [1] } (19/20)).similarity ≤ 1 ∧
       (3 : ℚ)/10 ≤ (RetrievedEvidence.mk
          { id := "fact_001", claimText := "X happened in 2020", sourceUrl := "u",
            publicationDate := "2020-01-01", category := "history",
            embedding := [1] } (19/20)).similarity) ∧
    EvidenceIndex.retrieve
        [{ id := "fact_002", claimText := "unrelated", sourceUrl := "u",
           publicationDate := "2020-01-01", category := "history",
           embedding := [1] }] (fun _ => 9/10) 5 (3/10) = [] := by
  constructor
  · have hret : EvidenceIndex.retrieve
        [{ id := "fact_001", claimText := "X happened in 2020", sourceUrl := "u",
           publicationDate := "2020-01-01", category := "history",
           embedding := [1] }] (fun _ => 1/20) 5 (3/10) =
        [RetrievedEvidence.mk
          { id := "fact_001", claimText := "X happened in 2020", sourceUrl := "u",
            publicationDate := "2020-01-01", category := "history",
            embedding := [1] } (19/20)] := by
      simp [EvidenceIndex.retrieve, List.insertionSort, List.orderedInsert, toSimilarity]
      norm_num [min_def, max_def]
    exact (C2_retrieve_contract
      [{ id := "fact_001", claimText := "X happened in 2020", sourceUrl := "u",
         publicationDate := "2020-01-01", category := "history",
         embedding := [1] }] (fun _ => 1/20) 5 (3/10)).1 _
      (by rw [hret]; exact List.mem_singleton_self _)
  · exact (C2_retrieve_contract
      [{ id := "fact_002", claimText := "unrelated", sourceUrl := "u",
         publicationDate := "2020-01-01", category := "history",
         embedding := [1] }] (fun _ => 9/10) 5 (3/10)).2.2.2
      (fun f _ => by norm_num [toSimilarity, min_def, max_def])

/-- Modelled from the spec: embedding-cache presence test
(`ml-service/services/fact_base_manager.py` is not under `src/`). Caching
is based on presence of a vector: an empty or absent vector is missing. -/
def hasEmbedding (f : CorpusFact) : Bool := !f.embedding.isEmpty

/-- Modelled from the spec: `FactStore.ensureEmbeddings`
(`ml-service/services/fact_base_manager.py` is not under `src/`). Facts are
partitioned into those with and without an embedding; the missing ones are
sent through the injected embedding capability `embedFn` and the computed
vectors are written back. The second component counts how many facts were
embedded on this call (the number of `embedFn` invocations). -/
def FactStore.ensureEmbeddings (facts : List CorpusFact) (embedFn : String → List ℚ) :
    List CorpusFact × ℕ :=
  (facts.map (fun f =>
      if hasEmbedding f then f else { f with embedding := embedFn f.claimText }),
   (facts.filter (fun f => !hasEmbedding f)).length)

/-- C8: on a corpus in which every fact already has an embedding,
ensureEmbeddings performs zero embedding computations and leaves the corpus
unchanged, so a second call after a completed first call is a no-op. -/
theorem C8_ensureEmbeddings_idempotent (facts : List CorpusFact)
    (embedFn : String → List ℚ)
    (h : ∀ f ∈ facts, hasEmbedding f = true) :
    FactStore.ensureEmbeddings facts embedFn = (facts, 0) := by
  unfold FactStore.ensureEmbeddings
  refine Prod.ext ?_ ?_
  · show facts.map _ = facts
    conv_rhs => rw [← List.map_id facts]
    exact List.map_congr_left (fun f hf => by rw [if_pos (h f hf)]; rfl)
  · show (facts.filter _).length = 0
    rw [List.length_eq_zero]
    exact List.filter_eq_nil_iff.mpr (fun f hf => by rw [h f hf]; decide)

/-- Witness for C8 at a concrete input: a two-fact corpus whose embeddings
are both present is returned unchanged with zero embedding computations. -/
theorem C8_ensureEmbeddings_idempotent_witness :
    FactStore.ensureEmbeddings
      [{ id := "fact_001", claimText := "a", sourceUrl := "u",
         publicationDate := "2024-01-01", category := "science", embedding := [1, 0] },
       { id := "fact_002", claimText := "b", sourceUrl := "u",
         publicationDate := "2024-01-02", category := "history", embedding := [0, 1] }]
      (fun _ => []) =
    ([{ id := "fact_001", claimText := "a", sourceUrl := "u",
        publicationDate := "2024-01-01", category := "science", embedding := [1, 0] },
      { id := "fact_002", claimText := "b", sourceUrl := "u",
        publicationDate := "2024-01-02", category := "history", embedding := [0, 1] }], 0) := by
  exact C8_ensureEmbeddings_idempotent _ _ (by decide)

/-- The confidence field of the upstream JSON payload as JavaScript sees
it: the field may be absent (undefined), may be the JSON literal null, or
may be a number. The routes test only for undefined, so a null confidence
is a distinct, representable state that the checks do not remove. -/
inductive ConfidenceField where
  | undef
  | null
  | num (c : ℚ)
deriving DecidableEq, Repr

/-- The numeric value JavaScript uses for the confidence field in the
route's comparison checks: null coerces to 0, making both the less-than-0
and greater-than-1 comparisons false; a number is itself. The undefined
case never reaches a comparison (the completeness check precedes it), and
its comparisons would be false as well, which 0 likewise models. -/
def ConfidenceField.toComparable : ConfidenceField → ℚ
  | ConfidenceField.undef => 0
  | ConfidenceField.null => 0
  | ConfidenceField.num c => c

/-- The upstream verification payload as the gateway sees it after JSON
parsing (src/unnamed/part_004, interface RAGVerificationResponse, and the
untyped result of src/backend/index.ts). Only the fields the gateway
validates or forwards as the verdict contract are kept; the evidence,
sources and metadata fields are forwarded opaquely and only logged, a
JS-falsy string field is the empty string, and the confidence field keeps
the JavaScript distinction between undefined, null and a number. -/
structure RAGResult where
  claim : String
  verdict : String
  confidence : ConfidenceField
  explanation : String
  reasoning : String
deriving DecidableEq, Repr

/-- A value thrown during the gateway's fetch phase: a JavaScript Error
with its name and message (the AbortError fired by the 30-second timeout,
connection failures, JSON parse errors and anything else), or a thrown
non-Error value. The catch blocks classify these by instance, by name and
by message content. -/
inductive ThrownError where
  | jsError (name : String) (msg : String)
  | nonError
deriving DecidableEq, Repr

/-- Outcome of the gateway's fetch to the ML service: a parsed ok response,
a non-ok HTTP status with its body text, or a thrown value. -/
inductive UpstreamOutcome where
  | ok (result : RAGResult)
  | httpError (status : ℕ) (text : String)
  | fetchThrow (e : ThrownError)
deriving DecidableEq, Repr

/-- Body of a gateway response: a forwarded success payload, or an error
object with its error and details fields (an absent details field is
modelled as the empty string). -/
inductive RouteBody where
  | success (result : RAGResult)
  | failure (error : String) (details : String)
deriving DecidableEq, Repr

/-- A gateway response together with whether the ML service was called. -/
structure RouteResponse where
  status : ℕ
  body : RouteBody
  mlCalled : Bool
deriving DecidableEq, Repr

/-- Embedding of the JavaScript String.prototype.trim used by the gateway
validation: leading and trailing whitespace characters are removed. Defined
structurally over the character list so that it evaluates by kernel
reduction. -/
def jsTrim (s : String) : String :=
  String.mk (((s.data.dropWhile Char.isWhitespace).reverse.dropWhile Char.isWhitespace).reverse)

/-- Embedding of the JavaScript String.prototype.toLowerCase used by the
cache key normalization, defined structurally over the character list so
that it evaluates by kernel reduction. -/
def jsToLower (s : String) : String := String.mk (s.data.map Char.toLower)

/-- Whether a character list starts with the whole pattern, structurally. -/
def charsHaveStart : List Char → List Char → Bool
  | [], _ => true
  | _ :: _, [] => false
  | p :: ps, c :: cs => p == c && charsHaveStart ps cs

/-- Whether a character list has the pattern as a contiguous run. -/
def charsInclude (pat : List Char) : List Char → Bool
  | [] => pat.isEmpty
  | c :: rest => charsHaveStart pat (c :: rest) || charsInclude pat rest

/-- Embedding of the JavaScript String.prototype.includes used by the
catch blocks to classify thrown errors by message content, defined
structurally so that it evaluates by kernel reduction. -/
def jsIncludes (s pat : String) : Bool := charsInclude pat.data s.data

/-- The verdict values the rag route accepts from the ML service
(src/unnamed/part_004, line 609). -/
def ragValidVerdicts : List String := ["true", "false", "unverifiable"]

/-- The POST handler of the rag verify gateway route, embedded from
src/unnamed/part_004 lines 528-680 on the cache-miss path (the Redis cache
is an external collaborator that degrades to a miss whenever unavailable,
per the CacheManager in the same file). Input validation runs before the
fetch; an ok upstream response is checked for completeness (claim, verdict
and a non-undefined confidence), an enumerated verdict and the JavaScript
numeric comparisons on the confidence before being forwarded with status
200; a non-ok status maps by range, and a thrown value is classified by
Error name and message content exactly as the catch blocks do. -/
def ragVerifyPOST (claim : String) (outcome : UpstreamOutcome) : RouteResponse :=
  if (jsTrim claim).length = 0 then
    { status := 400, body := RouteBody.failure "Claim is required" "",
      mlCalled := false }
  else if 2000 < claim.length then
    { status := 400, body := RouteBody.failure "Claim too long (max 2000 characters)" "",
      mlCalled := false }
  else
    match outcome with
    | UpstreamOutcome.ok result =>
        if result.claim = "" ∨ result.verdict = "" ∨
            result.confidence = ConfidenceField.undef then
          { status := 500,
            body := RouteBody.failure "Invalid response from RAG verification service"
              "The service returned an incomplete response."
            mlCalled := true }
        else if result.verdict ∉ ragValidVerdicts then
          { status := 500,
            body := RouteBody.failure "Invalid response from RAG verification service"
              "The service returned an invalid verdict."
            mlCalled := true }
        else if result.confidence.toComparable < 0 ∨ 1 < result.confidence.toComparable then
          { status := 500,
            body := RouteBody.failure "Invalid response from RAG verification service"
              "The service returned an invalid confidence score."
            mlCalled := true }
        else
          { status := 200, body := RouteBody.success result, mlCalled := true }
    | UpstreamOutcome.httpError s text =>
        if s = 503 then
          { status := 503,
            body := RouteBody.failure "RAG verification service unavailable"
              "The RAG pipeline is currently unavailable. Please try again later."
            mlCalled := true }
        else if 500 ≤ s then
          { status := 500,
            body := RouteBody.failure "RAG service error"
              "The RAG verification service encountered an error. Please try again."
            mlCalled := true }
        else if 400 ≤ s then
          { status := 400,
            body := RouteBody.failure "Invalid request"
              (if text = "" then "The request could not be processed." else text)
            mlCalled := true }
        else
          { status := 500,
            body := RouteBody.failure "Internal server error"
              ("ML service failed with status: " ++ toString s)
            mlCalled := true }
    | UpstreamOutcome.fetchThrow e =>
        match e with
        | ThrownError.jsError name msg =>
            if name = "AbortError" then
              { status := 504,
                body := RouteBody.failure "Request timeout"
                  "The RAG verification request took too long. Please try again with a shorter claim."
                mlCalled := true }
            else if jsIncludes msg "fetch failed" || jsIncludes msg "ECONNREFUSED" then
              { status := 503,
                body := RouteBody.failure "RAG verification service unavailable"
                  "Could not connect to the RAG verification service. Please try again later."
                mlCalled := true }
            else
              { status := 500, body := RouteBody.failure "Internal server error" msg
                mlCalled := true }
        | ThrownError.nonError =>
            { status := 500,
              body := RouteBody.failure "Internal server error" "Unknown error"
              mlCalled := true }

/-- The POST handler of the legacy backend verify route, embedded from
src/backend/index.ts lines 78-198 on the cache-miss path. Same shape as the
rag route with a 1000-character limit, but an ok upstream response is only
checked for completeness: there is no verdict-enumeration or
confidence-range validation in this route. -/
def backendVerifyPOST (claim : String) (outcome : UpstreamOutcome) : RouteResponse :=
  if (jsTrim claim).length = 0 then
    { status := 400, body := RouteBody.failure "Claim is required" "",
      mlCalled := false }
  else if 1000 < claim.length then
    { status := 400, body := RouteBody.failure "Claim too long (max 1000 characters)" "",
      mlCalled := false }
  else
    match outcome with
    | UpstreamOutcome.ok result =>
        if result.claim = "" ∨ result.verdict = "" ∨
            result.confidence = ConfidenceField.undef then
          { status := 500,
            body := RouteBody.failure "Invalid response from verification service"
              "The service returned an incomplete response."
            mlCalled := true }
        else
          { status := 200, body := RouteBody.success result, mlCalled := true }
    | UpstreamOutcome.httpError s text =>
        if s = 503 then
          { status := 503,
            body := RouteBody.failure "Verification service unavailable"
              "The ML service is currently unavailable. Please try again later."
            mlCalled := true }
        else if 500 ≤ s then
          { status := 500,
            body := RouteBody.failure "ML service error"
              "The verification service encountered an error. Please try again."
            mlCalled := true }
        else if 400 ≤ s then
          { status := 400,
            body := RouteBody.failure "Invalid request"
              (if text = "" then "The request could not be processed." else text)
            mlCalled := true }
        else
          { status := 500,
            body := RouteBody.failure "Internal server error"
              ("ML service failed with status: " ++ toString s)
            mlCalled := true }
    | UpstreamOutcome.fetchThrow e =>
        match e with
        | ThrownError.jsError name msg =>
            if name = "AbortError" then
              { status := 504,
                body := RouteBody.failure "Request timeout"
                  "The verification request took too long. Please try again."
                mlCalled := true }
            else if jsIncludes msg "fetch failed" || jsIncludes msg "ECONNREFUSED" then
              { status := 503,
                body := RouteBody.failure "Verification service unavailable"
                  "Could not connect to the verification service. Please try again later."
                mlCalled := true }
            else
              { status := 500, body := RouteBody.failure "Internal server error" msg
                mlCalled := true }
        | ThrownError.nonError =>
            { status := 500,
              body := RouteBody.failure "Internal server error" "Unknown error"
              mlCalled := true }

theorem string_length_zero_iff {s : String} : s.length = 0 ↔ s = "" := by
  constructor
  · intro h
    cases s with
    | mk data =>
        have hd : data = [] := List.length_eq_zero.mp h
        subst hd; rfl
  · intro h; subst h; rfl

/-- C6: a claim that is empty or whitespace-only after trimming is rejected
with HTTP 400 by both gateway routes before the ML service is called, and a
claim over the configured maximum length (2000 characters for the rag
route, 1000 for the legacy backend route) is likewise rejected with HTTP
400 without reaching the ML service. -/
theorem C6_input_validation (claim : String) (outcome : UpstreamOutcome) :
    ((jsTrim claim = "" ∨ 2000 < claim.length) →
        (ragVerifyPOST claim outcome).status = 400 ∧
        (ragVerifyPOST claim outcome).mlCalled = false) ∧
    ((jsTrim claim = "" ∨ 1000 < claim.length) →
        (backendVerifyPOST claim outcome).status = 400 ∧
        (backendVerifyPOST claim outcome).mlCalled = false) := by
  constructor
  · intro h
    unfold ragVerifyPOST
    by_cases h1 : (jsTrim claim).length = 0
    · rw [if_pos h1]; exact ⟨rfl, rfl⟩
    · have h2 : 2000 < claim.length := by
        rcases h with h | h
        · exact absurd (h ▸ rfl) h1
        · exact h
      rw [if_neg h1, if_pos h2]; exact ⟨rfl, rfl⟩
  · intro h
    unfold backendVerifyPOST
    by_cases h1 : (jsTrim claim).length = 0
    · rw [if_pos h1]; exact ⟨rfl, rfl⟩
    · have h2 : 1000 < claim.length := by
        rcases h with h | h
        · exact absurd (h ▸ rfl) h1
        · exact h
      rw [if_neg h1, if_pos h2]; exact ⟨rfl, rfl⟩

/-- Witness for C6 at a concrete input: a whitespace-only claim is rejected
with 400 by both routes and the ML service is not called. -/
theorem C6_input_validation_witness :
    (ragVerifyPOST "   " (UpstreamOutcome.fetchThrow ThrownError.nonError)).status = 400 ∧
    (ragVerifyPOST "   " (UpstreamOutcome.fetchThrow ThrownError.nonError)).mlCalled = false ∧
    (backendVerifyPOST "   " (UpstreamOutcome.fetchThrow ThrownError.nonError)).status = 400 ∧
    (backendVerifyPOST "   " (UpstreamOutcome.fetchThrow ThrownError.nonError)).mlCalled = false := by
  obtain ⟨hr, hb⟩ := C6_input_validation "   " (UpstreamOutcome.fetchThrow ThrownError.nonError)
  obtain ⟨hr1, hr2⟩ := hr (Or.inl (by decide))
  obtain ⟨hb1, hb2⟩ := hb (Or.inl (by decide))
  exact ⟨hr1, hr2, hb1, hb2⟩

/-- C7: for a claim that passes input validation, a comparison stage
failure is surfaced as a request failure and never a synthesized verdict:
the 30-second timeout abort yields an HTTP 504 error response, and an
upstream 5xx status yields an error response whose status is never 200. -/
theorem C7_comparison_failure_surfaces (claim : String)
    (hne : jsTrim claim ≠ "") (hlen : claim.length ≤ 2000) :
    (∀ msg,
        (ragVerifyPOST claim
          (UpstreamOutcome.fetchThrow (ThrownError.jsError "AbortError" msg))).status = 504 ∧
        ∃ e d, (ragVerifyPOST claim
          (UpstreamOutcome.fetchThrow (ThrownError.jsError "AbortError" msg))).body =
            RouteBody.failure e d) ∧
    (∀ s text, 500 ≤ s →
        (ragVerifyPOST claim (UpstreamOutcome.httpError s text)).status ≠ 200 ∧
        ∃ e d, (ragVerifyPOST claim (UpstreamOutcome.httpError s text)).body =
          RouteBody.failure e d) := by
  have h1 : ¬ (jsTrim claim).length = 0 := fun h =>
    hne (string_length_zero_iff.mp h)
  have h2 : ¬ 2000 < claim.length := not_lt.mpr hlen
  constructor
  · intro msg
    unfold ragVerifyPOST
    rw [if_neg h1, if_neg h2]
    dsimp only
    rw [if_pos rfl]
    exact ⟨rfl, _, _, rfl⟩
  · intro s text hs
    unfold ragVerifyPOST
    rw [if_neg h1, if_neg h2]
    dsimp only
    by_cases h3 : s = 503
    · rw [if_pos h3]
      exact ⟨by decide, _, _, rfl⟩
    · rw [if_neg h3, if_pos hs]
      exact ⟨by decide, _, _, rfl⟩

/-- Witness for C7 at a concrete input: a valid claim with a timeout gives
504, and an upstream 500 gives a non-200 error response. -/
theorem C7_comparison_failure_surfaces_witness :
    ((ragVerifyPOST "Test claim"
        (UpstreamOutcome.fetchThrow
          (ThrownError.jsError "AbortError" "The operation was aborted"))).status = 504 ∧
     ∃ e d, (ragVerifyPOST "Test claim"
        (UpstreamOutcome.fetchThrow
          (ThrownError.jsError "AbortError" "The operation was aborted"))).body =
        RouteBody.failure e d) ∧
    ((ragVerifyPOST "Test claim" (UpstreamOutcome.httpError 500 "boom")).status ≠ 200 ∧
     ∃ e d, (ragVerifyPOST "Test claim" (UpstreamOutcome.httpError 500 "boom")).body =
        RouteBody.failure e d) := by
  obtain ⟨ha, hh⟩ := C7_comparison_failure_surfaces "Test claim" (by decide) (by decide)
  exact ⟨ha "The operation was aborted", hh 500 "boom" (by decide)⟩

/-- The fixed external-facing error categories the rag verify route can put
in the error field of a failure response. -/
def ragErrorCategories : List String :=
  ["Claim is required", "Claim too long (max 2000 characters)",
   "RAG verification service unavailable", "RAG service error",
   "Invalid request", "Invalid response from RAG verification service",
   "Request timeout", "Internal server error"]

/-- The fixed external-facing error categories the legacy backend verify
route can put in the error field of a failure response. -/
def backendErrorCategories : List String :=
  ["Claim is required", "Claim too long (max 1000 characters)",
   "Verification service unavailable", "ML service error",
   "Invalid request", "Invalid response from verification service",
   "Request timeout", "Internal server error"]

/-- C9 counterexample: the claim that no error response body from the
verify gateway contains the raw message of an internal exception is false.
An Error whose name is not AbortError and whose message mentions neither
"fetch failed" nor "ECONNREFUSED" (such as the SyntaxError thrown by
response.json() on a malformed upstream body) escapes both fetch-phase
classifications (src/unnamed/part_004 lines 650-668), is rethrown to the
catch-all handler (lines 673-679), and its message is placed verbatim into
the details field of the 500 response body, exhibited here at the concrete
claim "Test claim" and the message "Unexpected token < in JSON at position 0". -/
theorem C9_counterexample :
    ¬ (∀ (msg e d : String),
        (ragVerifyPOST "Test claim"
          (UpstreamOutcome.fetchThrow (ThrownError.jsError "SyntaxError" msg))).body =
          RouteBody.failure e d → d ≠ msg) := by
  intro hclaim
  exact hclaim "Unexpected token < in JSON at position 0" "Internal server error"
    "Unexpected token < in JSON at position 0" (by decide) rfl

/-- C9 amended: every failure response of either verify gateway route
carries an error field drawn from a fixed list of external-facing category
strings, independent of the internal exception; the details field of the
catch-all 500 response, however, does echo the internal exception message
(as the counterexample shows), so only the category field is leak-free. -/
theorem C9_error_field_fixed_category (claim : String) (outcome : UpstreamOutcome)
    (e d : String) :
    ((ragVerifyPOST claim outcome).body = RouteBody.failure e d →
        e ∈ ragErrorCategories) ∧
    ((backendVerifyPOST claim outcome).body = RouteBody.failure e d →
        e ∈ backendErrorCategories) := by
  constructor
  · intro h
    unfold ragVerifyPOST at h
    repeat' split at h
    all_goals simp_all [ragErrorCategories]
  · intro h
    unfold backendVerifyPOST at h
    repeat' split at h
    all_goals simp_all [backendErrorCategories]

/-- Witness for the amended C9 at a concrete input: the catch-all 500
response of both routes uses the fixed category "Internal server error". -/
theorem C9_error_field_fixed_category_witness :
    "Internal server error" ∈ ragErrorCategories ∧
    "Internal server error" ∈ backendErrorCategories := by
  constructor
  · exact (C9_error_field_fixed_category "Test claim"
      (UpstreamOutcome.fetchThrow (ThrownError.jsError "TypeError" "boom"))
      "Internal server error" "boom").1 (by decide)
  · exact (C9_error_field_fixed_category "Test claim"
      (UpstreamOutcome.fetchThrow (ThrownError.jsError "TypeError" "boom"))
      "Internal server error" "boom").2 (by decide)

theorem string_append_left_cancel {p x y : String} (h : p ++ x = p ++ y) : x = y := by
  have hd : p.data ++ x.data = p.data ++ y.data := by
    have h2 := congrArg String.data h
    simpa [String.data_append] using h2
  have h3 := List.append_cancel_left hd
  cases x; cases y; exact congrArg String.mk h3

/-- `CacheManager.generateKey`, embedded from src/unnamed/part_000 lines
65-69 and src/frontend/app/api/verify/route.ts lines 66-70 (key namespace
"claim:"), and from the rag route in src/unnamed/part_004 lines 363-367
(key namespace "rag:"). The claim is normalized by lowercasing then
trimming; the SHA-256 hex digest from node crypto is an external capability
injected as `hash`; `pre` is the fixed per-route key namespace string. -/
def CacheManager.generateKey (pre : String) (hash : String → String)
    (claim : String) : String :=
  pre ++ hash (jsTrim (jsToLower claim))

/-- `CacheManager.set`, embedded from src/unnamed/part_000 lines 102-116:
the result is stored in Redis under the generated key. The Redis store is
modelled as an association list; a fresh entry shadows older ones, as a
Redis SETEX overwrite does. -/
def CacheManager.set {V : Type} (pre : String) (hash : String → String)
    (store : List (String × V)) (claim : String) (v : V) : List (String × V) :=
  (CacheManager.generateKey pre hash claim, v) :: store

/-- `CacheManager.get`, embedded from src/unnamed/part_000 lines 75-96: the
value stored under the generated key of the claim, if any. -/
def CacheManager.get {V : Type} (pre : String) (hash : String → String)
    (store : List (String × V)) (claim : String) : Option V :=
  (store.find? (fun kv => kv.1 == CacheManager.generateKey pre hash claim)).map
    (fun kv => kv.2)

/-- C10: two claims equal after lowercasing and trimming generate the same
cache key, so a result cached under one claim is returned for the other;
and two claims whose normalized forms hash to different digests generate
different keys. -/
theorem C10_generateKey_normalization {V : Type} (pre : String)
    (hash : String → String) (a b : String) :
    (jsTrim (jsToLower a) = jsTrim (jsToLower b) →
        CacheManager.generateKey pre hash a = CacheManager.generateKey pre hash b ∧
        ∀ (store : List (String × V)) (v : V),
          CacheManager.get pre hash (CacheManager.set pre hash store a v) b = some v) ∧
    (hash (jsTrim (jsToLower a)) ≠ hash (jsTrim (jsToLower b)) →
        CacheManager.generateKey pre hash a ≠ CacheManager.generateKey pre hash b) := by
  constructor
  · intro h
    have hkey : CacheManager.generateKey pre hash a =
        CacheManager.generateKey pre hash b := by
      unfold CacheManager.generateKey
      rw [h]
    refine ⟨hkey, fun store v => ?_⟩
    unfold CacheManager.get CacheManager.set
    rw [hkey]
    simp [List.find?]
  · intro h hkey
    exact h (string_append_left_cancel hkey)

/-- Witness for C10 at concrete inputs: the claims "  Water Boils  " and
"water boils" normalize identically, so a result cached under the first is
returned for the second; and under an injective concrete hash, claims with
different normal forms get different keys. -/
theorem C10_generateKey_normalization_witness :
    (CacheManager.generateKey "claim:" (fun s => s) "  Water Boils  " =
        CacheManager.generateKey "claim:" (fun s => s) "water boils" ∧
      CacheManager.get "claim:" (fun s => s)
        (CacheManager.set "claim:" (fun s => s) ([] : List (String × ℕ))
          "  Water Boils  " 7) "water boils" = some 7) ∧
    CacheManager.generateKey "claim:" (fun s => s) "water boils" ≠
      CacheManager.generateKey "claim:" (fun s => s) "water freezes" := by
  constructor
  · obtain ⟨hk, hget⟩ :=
      (C10_generateKey_normalization (V := ℕ) "claim:" (fun s => s)
        "  Water Boils  " "water boils").1 (by decide)
    exact ⟨hk, hget [] 7⟩
  · exact (C10_generateKey_normalization (V := ℕ) "claim:" (fun s => s)
      "water boils" "water freezes").2 (by decide)
